import Mathlib

/-!
Verification development for the space-eye imagery workflow client
(`src/main.py`).  The Python source is shallowly embedded: pure helpers
become Lean functions; the asynchronous protocol client `ApiEngine` is
modelled as a function of the scripted remote responses (an `Oracle`)
that returns the list of observable events (requests and sleeps) next to
its outcome; Python exceptions become explicit error values; JSON numbers
are rationals; the wall clock of `datetime.now()` is an explicit
`PyDatetime` argument.
-/

/-- A GeoJSON document, treated as an uninterpreted value that the client
passes through verbatim (the source never inspects it). -/
structure GeoJson where
  raw : String
deriving DecidableEq

/-- One entry of a scene's `bands` sequence; only `gsd` is read by the code. -/
structure Band where
  gsd : ℚ
deriving DecidableEq

/-- A remote-sensing scene as read by `get_best_scene` and `main`:
`cloudCover` is an optional JSON field, `bands` an ordered sequence. -/
structure Scene where
  sceneId : String
  cloudCover : Option ℚ
  bands : List Band
deriving DecidableEq

/-- The search retrieve body's `results` sequence. -/
structure SceneCollection where
  results : List Scene
deriving DecidableEq

/-- Python exceptions the scene selector can raise, plus the explicit
`NoScenesAvailable` error kind named by the specification's taxonomy
(the source never raises it; it is needed to state what the spec asks). -/
inductive SelErr where
  | indexError
  | noScenesAvailable
deriving DecidableEq

/-- The qualification test of line 35 of the source:
`scene.get('cloudCover', 1) <= 0.30`.  A scene with no `cloudCover`
field contributes the default value 1. -/
def qualD (s : Scene) : Bool :=
  decide (s.cloudCover.getD 1 ≤ (3 : ℚ) / 10)

/-- Embedding of the Python expression `scene['bands'][0]['gsd']`:
an empty `bands` sequence raises `IndexError`. -/
def gsd0 (s : Scene) : Except SelErr ℚ :=
  match s.bands with
  | [] => .error .indexError
  | b :: _ => .ok b.gsd

/-- Total variant of `gsd0`, used on the specification side where the
first band is assumed to exist (it agrees with `gsd0` whenever
`bands` is non-empty). -/
def gsdD (s : Scene) : ℚ :=
  match s.bands with
  | [] => 0
  | b :: _ => b.gsd

/-- The `for` loop of `get_best_scene` (lines 33-39): fold over the
result sequence, keeping the qualifying scene with the strictly
smallest `bands[0].gsd` seen so far. -/
def best_scene_loop : List Scene → Option Scene → Except SelErr (Option Scene)
  | [], best => .ok best
  | s :: rest, best =>
    if qualD s then
      match best with
      | none => best_scene_loop rest (some s)
      | some b =>
        match gsd0 s, gsd0 b with
        | .ok gs, .ok gb =>
          if gs < gb then best_scene_loop rest (some s)
          else best_scene_loop rest (some b)
        | .error e, _ => .error e
        | .ok _, .error e => .error e
    else best_scene_loop rest best

/-- Embedding of `get_best_scene` (lines 32-40).  The final line
`return best_scene if best_scene else scenes['results'][0]` indexes the
raw result list, so an empty collection raises `IndexError`. -/
def get_best_scene (scenes : SceneCollection) : Except SelErr Scene :=
  match best_scene_loop scenes.results none with
  | .error e => .error e
  | .ok (some b) => .ok b
  | .ok none =>
    match scenes.results with
    | [] => .error .indexError
    | s :: _ => .ok s

/-- The qualifying scenes of a collection, in input order. -/
def qualifiers (scenes : SceneCollection) : List Scene :=
  scenes.results.filter qualD

/-- The search request payload built by `get_search_payload`
(lines 94-103): fixed provider and dataset, a formatted lookback
start date, and the input geometry passed through verbatim. -/
structure SearchPayload where
  provider : String
  dataset : String
  startDatetime : String
  extent : GeoJson
deriving DecidableEq

/-- The release request payload built by `get_release_payload`
(lines 106-111): the chosen scene id and the input geometry verbatim. -/
structure ReleasePayload where
  sceneId : String
  extent : GeoJson
deriving DecidableEq

/-- A JSON payload POSTed to an initiate endpoint. -/
inductive Payload where
  | search (p : SearchPayload)
  | release (p : ReleasePayload)
deriving DecidableEq

/-- A parsed JSON response from the remote service, flattened to the
fields the client reads: `httpStatus` is the HTTP status code of the
response, the remaining components are the optional body fields
`error`, `errorMessage`, `pipelineId`, `status`, `nextTry` and
`results` (the last one only present on a search retrieve body). -/
structure Resp where
  httpStatus : Nat
  error : Option String
  errorMessage : Option String
  pipelineId : Option String
  status : Option String
  nextTry : Option ℚ
  results : Option (List Scene)
deriving DecidableEq

/-- Exceptions the protocol client can raise: `authenticationError` and
`remoteRequestError` from `_make_request`, `pipelineFailed` from the
FAILED branch of the poll loop (the source raises a bare `Exception`
whose message embeds the pipeline id), and `typeError` for the
`asyncio.sleep(None)` crash when the initiate response carries no
`nextTry`. -/
inductive Err where
  | authenticationError (msg : String)
  | remoteRequestError (msg : Option String)
  | pipelineFailed (pipelineId : Option String)
  | typeError
deriving DecidableEq

/-- Observable actions of one workflow run: the three kinds of POST
request, and the inter-poll sleep with the delay value handed to it
(`none` models Python passing `None`). -/
inductive Event where
  | initiateReq (address : String) (payload : Payload)
  | statusReq (pipelineId : Option String)
  | retrieveReq (pipelineId : Option String)
  | sleep (delay : Option ℚ)
deriving DecidableEq

namespace ApiEngine

/-- Embedding of `ApiEngine._make_request` (lines 50-64), as a function of
the scripted response: an HTTP 200 response is returned as parsed JSON;
otherwise the body's `error` field selects between `AuthenticationError`
(for the sentinel `INVALID-AUTHORIZATION-HEADER`) and a bare exception
carrying the body's `errorMessage` (or `None` when absent). -/
def make_request (r : Resp) : Except Err Resp :=
  if r.httpStatus ≠ 200 then
    if r.error = some "INVALID-AUTHORIZATION-HEADER" then
      .error (.authenticationError "Invalid token used")
    else
      .error (.remoteRequestError r.errorMessage)
  else
    .ok r

/-- The scripted remote responses one `get_data` call consumes: the
initiate response, the successive status responses of the shared tasking
endpoint, and the retrieve response. -/
structure Oracle where
  initiateResp : Resp
  statusResps : List Resp
  retrieveResp : Resp

/-- Result of the poll loop of `get_data`: the loop exits to retrieve,
raises, or (a model artifact) runs out of scripted status responses
while the Python loop would keep polling. -/
inductive PollOutcome where
  | resolved
  | err (e : Err)
  | exhausted

/-- The `while True` poll loop of `get_data` (lines 79-87), unrolled over
the scripted status responses.  Each iteration sleeps the current delay
(`asyncio.sleep(None)` raises `TypeError` when the initiate response
supplied no `nextTry`), POSTs the pipeline id to the shared tasking
endpoint, and reads `status` with `.get('status', '')`: `RESOLVED` exits
the loop, `FAILED` raises, anything else adopts
`status_response.get('nextTry', 100)` as the new delay and loops. -/
def pollLoop (pid : Option String) :
    Option ℚ → List Resp → List Event × PollOutcome
  | none, _ => ([.sleep none], .err .typeError)
  | some d, [] => ([.sleep (some d), .statusReq pid], .exhausted)
  | some d, r :: rest =>
    match make_request r with
    | .error e => ([.sleep (some d), .statusReq pid], .err e)
    | .ok resp =>
      if resp.status.getD "" = "RESOLVED" then
        ([.sleep (some d), .statusReq pid], .resolved)
      else if resp.status.getD "" = "FAILED" then
        ([.sleep (some d), .statusReq pid], .err (.pipelineFailed pid))
      else
        let next := pollLoop pid (some (resp.nextTry.getD 100)) rest
        (.sleep (some d) :: .statusReq pid :: next.1, next.2)

/-- Result of one `get_data` call. -/
inductive Outcome where
  | ok (r : Resp)
  | err (e : Err)
  | incomplete

/-- Embedding of `ApiEngine.get_data` (lines 75-91): initiate, read
`nextTry` and `pipelineId` from the initiate response with `.get` (both
may be absent), run the poll loop, then retrieve and return the retrieve
response.  The returned list is the trace of observable events in
order. -/
def get_data (o : Oracle) (p : Payload) (api_address : String) :
    List Event × Outcome :=
  match make_request o.initiateResp with
  | .error e => ([.initiateReq (api_address ++ "/initiate") p], .err e)
  | .ok ir =>
    let poll := pollLoop ir.pipelineId ir.nextTry o.statusResps
    match poll.2 with
    | .resolved =>
      (.initiateReq (api_address ++ "/initiate") p ::
         (poll.1 ++ [.retrieveReq ir.pipelineId]),
       match make_request o.retrieveResp with
       | .ok r => .ok r
       | .error e => .err e)
    | .err e => (.initiateReq (api_address ++ "/initiate") p :: poll.1, .err e)
    | .exhausted =>
      (.initiateReq (api_address ++ "/initiate") p :: poll.1, .incomplete)

end ApiEngine

/-- Number of initiate requests in a trace. -/
def countInitiate (t : List Event) : Nat :=
  t.countP fun e => match e with | .initiateReq _ _ => true | _ => false

/-- Number of status requests in a trace. -/
def countStatus (t : List Event) : Nat :=
  t.countP fun e => match e with | .statusReq _ => true | _ => false

/-- Number of retrieve requests in a trace. -/
def countRetrieve (t : List Event) : Nat :=
  t.countP fun e => match e with | .retrieveReq _ => true | _ => false

/-- The poll traffic the specification prescribes for a run of the poll
loop over the given status responses: before each status request one
sleep of the delay advertised by the previous response, the delay for
the following request being the response's `nextTry`, defaulting to 100
seconds when absent. -/
def specPollTrace (pid : Option String) : ℚ → List Resp → List Event
  | _, [] => []
  | d, r :: rest =>
    .sleep (some d) :: .statusReq pid ::
      specPollTrace pid (r.nextTry.getD 100) rest

/-- A Python naive `datetime`, split as its proleptic-Gregorian ordinal
day (`date.toordinal` convention: day 1 is 0001-01-01) and the second
within the day.  Naive datetime arithmetic acts on this pair without any
timezone adjustment. -/
structure PyDatetime where
  ordinal : ℤ
  secondsOfDay : ℕ
deriving DecidableEq

/-- `dt - timedelta(days=n)` on a naive datetime: the ordinal decreases
by `n`, the time of day is untouched. -/
def timedelta_days_sub (dt : PyDatetime) (days : ℤ) : PyDatetime :=
  ⟨dt.ordinal - days, dt.secondsOfDay⟩

/-- Gregorian civil date (year, month, day) of an ordinal day, by the
standard days-to-civil conversion (shifted to the `toordinal` epoch). -/
def civilFromOrdinal (ord : ℤ) : ℤ × ℤ × ℤ :=
  let z := ord - 719163 + 719468
  let era := Int.fdiv z 146097
  let doe := z - era * 146097
  let yoe := (doe - doe / 1460 + doe / 36524 - doe / 146096) / 365
  let y := yoe + era * 400
  let doy := doe - (365 * yoe + yoe / 4 - yoe / 100)
  let mp := (5 * doy + 2) / 153
  let d := doy - (153 * mp + 2) / 5 + 1
  let m := if mp < 10 then mp + 3 else mp - 9
  (if m ≤ 2 then y + 1 else y, m, d)

/-- Two-digit zero-padded decimal rendering (strftime `%m`, `%d`, and the
time components). -/
def pad2 (n : ℤ) : String :=
  if n < 10 then "0" ++ toString n else toString n

/-- Four-digit zero-padded decimal rendering (strftime `%Y`). -/
def pad4 (n : ℤ) : String :=
  if n < 10 then "000" ++ toString n
  else if n < 100 then "00" ++ toString n
  else if n < 1000 then "0" ++ toString n
  else toString n

/-- strftime `%Y-%m-%d` of the day with the given ordinal. -/
def formatYmd (ord : ℤ) : String :=
  match civilFromOrdinal ord with
  | (y, m, d) => pad4 y ++ "-" ++ pad2 m ++ "-" ++ pad2 d

/-- The exact format string of line 100 of the source,
`strftime("%Y-%m-%d 00:00:00")`: the calendar date of the datetime
followed by the literal text `00:00:00`. -/
def strftime_date_midnight (dt : PyDatetime) : String :=
  formatYmd dt.ordinal ++ " 00:00:00"

/-- Full `%Y-%m-%d %H:%M:%S` timestamp rendering of a datetime,
specification side. -/
def strftime_full (dt : PyDatetime) : String :=
  formatYmd dt.ordinal ++
    (" " ++ (pad2 ((dt.secondsOfDay : ℤ) / 3600) ++
      (":" ++ (pad2 (((dt.secondsOfDay : ℤ) % 3600) / 60) ++
        (":" ++ pad2 ((dt.secondsOfDay : ℤ) % 60))))))

/-- Truncation of a datetime to the start of its day, specification
side. -/
def midnightOf (dt : PyDatetime) : PyDatetime :=
  ⟨dt.ordinal, 0⟩

/-- Embedding of `get_search_payload` (lines 94-103); `now` stands for
`datetime.now()` and `days_ago` for the parameter defaulting to 90. -/
def get_search_payload (geojson : GeoJson) (now : PyDatetime)
    (days_ago : ℤ) : SearchPayload :=
  ⟨"gbdx", "idaho-pansharpened",
   strftime_date_midnight (timedelta_days_sub now days_ago), geojson⟩

/-- Embedding of `get_release_payload` (lines 106-111). -/
def get_release_payload (geojson : GeoJson) (scene_id : String) :
    ReleasePayload :=
  ⟨scene_id, geojson⟩

/-- The shared tasking status endpoint of `ApiEngine` (line 45). -/
def tasking_api_address : String :=
  "https://spaceknow-tasking.appspot.com/tasking/get-status"

/-- Endpoint of the search pipeline engine (line 118). -/
def ragnar_search_address : String :=
  "https://spaceknow-imagery.appspot.com/imagery/search"

/-- Endpoint of the imagery release pipeline engine (line 119). -/
def kraken_imagery_address : String :=
  "https://spaceknow-kraken.appspot.com/kraken/release/imagery/geojson"

/-- Endpoint of the cars release pipeline engine (line 120). -/
def kraken_cars_address : String :=
  "https://spaceknow-kraken.appspot.com/kraken/release/cars/geojson"

/-- Errors that can abort the workflow of `main`. -/
inductive MainErr where
  | api (e : Err)
  | sel (e : SelErr)
  | keyError
deriving DecidableEq

/-- Result of one workflow run: the two retrieved maps, an error, or the
model artifact for a run whose scripted responses ran out. -/
inductive MainResult where
  | ok (imagery_map cars_map : Resp)
  | err (e : MainErr)
  | incomplete

namespace Workflow

/-- Embedding of `main` (lines 113-130): run the search pipeline with the
payload built from the input geometry, select the best scene of the
retrieved `results` field, then run the imagery release and the cars
release sequentially, each with a payload built from the chosen scene's
identifier and the original geometry.  The trace is the concatenation of
the three pipeline traces in order. -/
def main (geojson : GeoJson) (now : PyDatetime)
    (searchO imageryO carsO : ApiEngine.Oracle) : List Event × MainResult :=
  match (ApiEngine.get_data searchO
      (.search (get_search_payload geojson now 90)) ragnar_search_address).2 with
  | .err e =>
    ((ApiEngine.get_data searchO
        (.search (get_search_payload geojson now 90)) ragnar_search_address).1,
     .err (.api e))
  | .incomplete =>
    ((ApiEngine.get_data searchO
        (.search (get_search_payload geojson now 90)) ragnar_search_address).1,
     .incomplete)
  | .ok resp =>
    match resp.results with
    | none =>
      ((ApiEngine.get_data searchO
          (.search (get_search_payload geojson now 90)) ragnar_search_address).1,
       .err .keyError)
    | some l =>
      match get_best_scene ⟨l⟩ with
      | .error e =>
        ((ApiEngine.get_data searchO
            (.search (get_search_payload geojson now 90)) ragnar_search_address).1,
         .err (.sel e))
      | .ok best =>
        match (ApiEngine.get_data imageryO
            (.release (get_release_payload geojson best.sceneId))
            kraken_imagery_address).2 with
        | .err e =>
          ((ApiEngine.get_data searchO
              (.search (get_search_payload geojson now 90)) ragnar_search_address).1 ++
           (ApiEngine.get_data imageryO
              (.release (get_release_payload geojson best.sceneId))
              kraken_imagery_address).1,
           .err (.api e))
        | .incomplete =>
          ((ApiEngine.get_data searchO
              (.search (get_search_payload geojson now 90)) ragnar_search_address).1 ++
           (ApiEngine.get_data imageryO
              (.release (get_release_payload geojson best.sceneId))
              kraken_imagery_address).1,
           .incomplete)
        | .ok imagery_map =>
          match (ApiEngine.get_data carsO
              (.release (get_release_payload geojson best.sceneId))
              kraken_cars_address).2 with
          | .err e =>
            ((ApiEngine.get_data searchO
                (.search (get_search_payload geojson now 90)) ragnar_search_address).1 ++
             (ApiEngine.get_data imageryO
                (.release (get_release_payload geojson best.sceneId))
                kraken_imagery_address).1 ++
             (ApiEngine.get_data carsO
                (.release (get_release_payload geojson best.sceneId))
                kraken_cars_address).1,
             .err (.api e))
          | .incomplete =>
            ((ApiEngine.get_data searchO
                (.search (get_search_payload geojson now 90)) ragnar_search_address).1 ++
             (ApiEngine.get_data imageryO
                (.release (get_release_payload geojson best.sceneId))
                kraken_imagery_address).1 ++
             (ApiEngine.get_data carsO
                (.release (get_release_payload geojson best.sceneId))
                kraken_cars_address).1,
             .incomplete)
          | .ok cars_map =>
            ((ApiEngine.get_data searchO
                (.search (get_search_payload geojson now 90)) ragnar_search_address).1 ++
             (ApiEngine.get_data imageryO
                (.release (get_release_payload geojson best.sceneId))
                kraken_imagery_address).1 ++
             (ApiEngine.get_data carsO
                (.release (get_release_payload geojson best.sceneId))
                kraken_cars_address).1,
             .ok imagery_map cars_map)

end Workflow

/-- Fixture: a 200 status response still in progress, advertising a
5-second delay. -/
def procResp : Resp := ⟨200, none, none, none, some "PROCESSING", some 5, none⟩

/-- Fixture: a 200 status response reporting RESOLVED. -/
def resolvedResp : Resp := ⟨200, none, none, none, some "RESOLVED", none, none⟩

/-- Fixture: a 200 status response reporting FAILED. -/
def failedResp : Resp := ⟨200, none, none, none, some "FAILED", none, none⟩

/-- Fixture: a 200 response with every optional field absent. -/
def emptyResp : Resp := ⟨200, none, none, none, none, none, none⟩

/-- Fixture: a release payload. -/
def fixturePayload : Payload := .release ⟨"scene-1", ⟨"geometry"⟩⟩

/-- Fixture oracle: initiate advertises a 7-second delay, one in-progress
poll precedes the RESOLVED poll. -/
def c1_oracle : ApiEngine.Oracle :=
  ⟨⟨200, none, none, some "pid-1", none, some 7, none⟩,
   [procResp, resolvedResp], emptyResp⟩

/-- Fixture oracle: one in-progress poll, then FAILED, with a further
scripted response after it. -/
def c4_oracle : ApiEngine.Oracle :=
  ⟨⟨200, none, none, some "pid-4", none, some 7, none⟩,
   [procResp, failedResp, procResp], emptyResp⟩

/-- Fixture oracle: the initiate response supplies no `nextTry`. -/
def c7_oracle : ApiEngine.Oracle :=
  ⟨⟨200, none, none, some "pid-7", none, none, none⟩, [procResp], emptyResp⟩

/-- Fixture: the input geometry of a concrete workflow run. -/
def fixtureGeo : GeoJson := ⟨"polygon-1"⟩

/-- Fixture: the wall clock of a concrete workflow run. -/
def fixtureNow : PyDatetime := ⟨700000, 3723⟩

/-- Fixture: a qualifying scene returned by the search pipeline. -/
def fixtureScene : Scene := ⟨"B", some 0, [⟨1⟩]⟩

/-- Fixture oracle for the search pipeline: resolves on the first poll and
retrieves a one-scene collection. -/
def fixtureSearchOracle : ApiEngine.Oracle :=
  ⟨⟨200, none, none, some "pid-s", none, some 1, none⟩, [resolvedResp],
   ⟨200, none, none, none, none, none, some [fixtureScene]⟩⟩

/-- Fixture oracle for a release pipeline: resolves on the first poll. -/
def fixtureReleaseOracle : ApiEngine.Oracle :=
  ⟨⟨200, none, none, some "pid-r", none, some 1, none⟩, [resolvedResp],
   emptyResp⟩

namespace SelectorProofs

theorem gsd0_eq_ok (s : Scene) (h : s.bands ≠ []) : gsd0 s = .ok (gsdD s) := by
  cases hb : s.bands with
  | nil => exact absurd hb h
  | cons b t => simp [gsd0, gsdD, hb]

/-- The selector loop is the Mathlib `argmin` fold over the qualifying
scenes, provided every qualifying scene (and the accumulator) has a
first band. -/
theorem best_scene_loop_eq_argAux (l : List Scene) :
    ∀ acc : Option Scene,
      (∀ s ∈ l, qualD s = true → s.bands ≠ []) →
      (∀ a, acc = some a → a.bands ≠ []) →
      best_scene_loop l acc =
        .ok ((l.filter qualD).foldl
              (List.argAux fun b c => gsdD b < gsdD c) acc) := by
  induction l with
  | nil => intro acc _ _; simp [best_scene_loop]
  | cons s rest ih =>
    intro acc hq hacc
    by_cases hqs : qualD s = true
    · have hsb : s.bands ≠ [] := hq s (List.mem_cons_self s rest) hqs
      have hrest : ∀ t ∈ rest, qualD t = true → t.bands ≠ [] :=
        fun t ht => hq t (List.mem_cons_of_mem s ht)
      cases acc with
      | none =>
        rw [show best_scene_loop (s :: rest) none =
              best_scene_loop rest (some s) by simp [best_scene_loop, hqs]]
        rw [ih (some s) hrest (by intro a ha; cases ha; exact hsb)]
        simp [List.filter_cons, hqs, List.argAux]
      | some b =>
        have hbb : b.bands ≠ [] := hacc b rfl
        rw [show best_scene_loop (s :: rest) (some b) =
              (if gsdD s < gsdD b then best_scene_loop rest (some s)
               else best_scene_loop rest (some b)) by
              simp [best_scene_loop, hqs, gsd0_eq_ok s hsb, gsd0_eq_ok b hbb]]
        by_cases hlt : gsdD s < gsdD b
        · rw [if_pos hlt, ih (some s) hrest (by intro a ha; cases ha; exact hsb)]
          simp [List.filter_cons, hqs, List.argAux, hlt]
        · rw [if_neg hlt, ih (some b) hrest (by intro a ha; cases ha; exact hbb)]
          simp [List.filter_cons, hqs, List.argAux, hlt]
    · have hq0 : qualD s = false := by
        cases h : qualD s
        · rfl
        · exact absurd h hqs
      rw [show best_scene_loop (s :: rest) acc = best_scene_loop rest acc by
            simp [best_scene_loop, hq0]]
      rw [ih acc (fun t ht => hq t (List.mem_cons_of_mem s ht)) hacc]
      simp [List.filter_cons, hq0]

theorem best_scene_loop_eq_argmin (scenes : SceneCollection)
    (hb : ∀ s ∈ scenes.results, qualD s = true → s.bands ≠ []) :
    best_scene_loop scenes.results none =
      .ok (List.argmin gsdD (qualifiers scenes)) := by
  rw [best_scene_loop_eq_argAux scenes.results none hb (by intro a ha; cases ha)]
  rfl

end SelectorProofs

/-- C2: for every non-empty scene collection, the selector returns, when at
least one scene qualifies (`cloudCover ≤ 0.30` with missing cloud cover
defaulting to 1), the qualifying scene with minimal `bands[0].gsd`, ties
resolving to the earliest such scene in input order; otherwise it returns
the first scene of the collection, unconditionally. -/
theorem C2_best_scene_selection (col : SceneCollection)
    (hne : col.results ≠ [])
    (hb : ∀ s ∈ col.results, qualD s = true → s.bands ≠ []) :
    (qualifiers col = [] →
      ∃ s t, col.results = s :: t ∧ get_best_scene col = .ok s) ∧
    (qualifiers col ≠ [] →
      ∃ b, get_best_scene col = .ok b ∧ b ∈ qualifiers col ∧
        (∀ t ∈ qualifiers col, gsdD b ≤ gsdD t) ∧
        (∀ t ∈ qualifiers col, gsdD t ≤ gsdD b →
          (qualifiers col).indexOf b ≤ (qualifiers col).indexOf t)) := by
  have hloop := SelectorProofs.best_scene_loop_eq_argmin col hb
  constructor
  · intro hq
    obtain ⟨s, t, hres⟩ := List.exists_cons_of_ne_nil hne
    refine ⟨s, t, hres, ?_⟩
    unfold get_best_scene
    rw [hloop, hq, List.argmin_nil, hres]
  · intro hq
    obtain ⟨m, hm⟩ : ∃ m, List.argmin gsdD (qualifiers col) = some m := by
      cases harg : List.argmin gsdD (qualifiers col) with
      | none => exact absurd (List.argmin_eq_none.mp harg) hq
      | some m => exact ⟨m, rfl⟩
    have hchar := List.argmin_eq_some_iff.mp hm
    refine ⟨m, ?_, hchar.1, hchar.2.1, hchar.2.2⟩
    unfold get_best_scene
    rw [hloop, hm]

/-- Witness for C2 at a concrete two-scene collection. -/
theorem C2_best_scene_selection_witness :
    (qualifiers ⟨[⟨"A", some (1/2), [⟨1⟩]⟩, ⟨"B", some (1/10), [⟨1/2⟩]⟩]⟩ = [] →
      ∃ s t, (⟨[⟨"A", some (1/2), [⟨1⟩]⟩, ⟨"B", some (1/10), [⟨1/2⟩]⟩]⟩ :
          SceneCollection).results = s :: t ∧
        get_best_scene ⟨[⟨"A", some (1/2), [⟨1⟩]⟩, ⟨"B", some (1/10), [⟨1/2⟩]⟩]⟩ = .ok s) ∧
    (qualifiers ⟨[⟨"A", some (1/2), [⟨1⟩]⟩, ⟨"B", some (1/10), [⟨1/2⟩]⟩]⟩ ≠ [] →
      ∃ b, get_best_scene ⟨[⟨"A", some (1/2), [⟨1⟩]⟩, ⟨"B", some (1/10), [⟨1/2⟩]⟩]⟩ = .ok b ∧
        b ∈ qualifiers ⟨[⟨"A", some (1/2), [⟨1⟩]⟩, ⟨"B", some (1/10), [⟨1/2⟩]⟩]⟩ ∧
        (∀ t ∈ qualifiers ⟨[⟨"A", some (1/2), [⟨1⟩]⟩, ⟨"B", some (1/10), [⟨1/2⟩]⟩]⟩,
          gsdD b ≤ gsdD t) ∧
        (∀ t ∈ qualifiers ⟨[⟨"A", some (1/2), [⟨1⟩]⟩, ⟨"B", some (1/10), [⟨1/2⟩]⟩]⟩,
          gsdD t ≤ gsdD b →
          (qualifiers ⟨[⟨"A", some (1/2), [⟨1⟩]⟩, ⟨"B", some (1/10), [⟨1/2⟩]⟩]⟩).indexOf b ≤
          (qualifiers ⟨[⟨"A", some (1/2), [⟨1⟩]⟩, ⟨"B", some (1/10), [⟨1/2⟩]⟩]⟩).indexOf t)) :=
  C2_best_scene_selection ⟨[⟨"A", some (1/2), [⟨1⟩]⟩, ⟨"B", some (1/10), [⟨1/2⟩]⟩]⟩
    (List.cons_ne_nil _ _)
    (by intro s hs _; fin_cases hs <;> exact List.cons_ne_nil _ _)

/-- C3 counterexample: in the two-scene collection below, scene A has no
`cloudCover` field and the strictly smaller `bands[0].gsd`, yet the
selector returns scene B: a missing cloud cover does disqualify a scene
from the minimal-gsd comparison, contrary to the claim. -/
theorem C3_counterexample :
    (⟨"A", none, [⟨1⟩]⟩ : Scene).cloudCover = none ∧
    gsdD ⟨"A", none, [⟨1⟩]⟩ < gsdD ⟨"B", some 0, [⟨2⟩]⟩ ∧
    get_best_scene ⟨[⟨"A", none, [⟨1⟩]⟩, ⟨"B", some 0, [⟨2⟩]⟩]⟩ =
      .ok ⟨"B", some 0, [⟨2⟩]⟩ := by
  have hA : qualD ⟨"A", none, [⟨1⟩]⟩ = false := by
    simp only [qualD, Option.getD_none, decide_eq_false_iff_not]
    norm_num
  have hB : qualD ⟨"B", some 0, [⟨2⟩]⟩ = true := by
    simp only [qualD, Option.getD_some, decide_eq_true_eq]
    norm_num
  refine ⟨rfl, by norm_num [gsdD], ?_⟩
  simp [get_best_scene, best_scene_loop, hA, hB]

/-- C3 amended: a scene with no `cloudCover` field is treated as having
cloud cover 1, which exceeds the 0.30 threshold, so the scene is excluded
from the qualifying set over which the minimal-gsd comparison runs (it can
only be returned through the no-qualifier first-scene fallback). -/
theorem C3_missing_cloud_cover_disqualifies (s : Scene)
    (h : s.cloudCover = none) :
    qualD s = false ∧ ∀ col : SceneCollection, s ∉ qualifiers col := by
  have hq : qualD s = false := by
    simp only [qualD, h, Option.getD, decide_eq_false_iff_not]
    norm_num
  refine ⟨hq, fun col hmem => ?_⟩
  have hmem2 := (List.mem_filter.mp hmem).2
  rw [hq] at hmem2
  cases hmem2

/-- Witness for the amended C3 at a concrete scene and collection. -/
theorem C3_missing_cloud_cover_disqualifies_witness :
    qualD ⟨"A", none, [⟨1⟩]⟩ = false ∧
    (⟨"A", none, [⟨1⟩]⟩ : Scene) ∉
      qualifiers ⟨[⟨"A", none, [⟨1⟩]⟩, ⟨"B", some 0, [⟨2⟩]⟩]⟩ :=
  ⟨(C3_missing_cloud_cover_disqualifies ⟨"A", none, [⟨1⟩]⟩ rfl).1,
   (C3_missing_cloud_cover_disqualifies ⟨"A", none, [⟨1⟩]⟩ rfl).2
     ⟨[⟨"A", none, [⟨1⟩]⟩, ⟨"B", some 0, [⟨2⟩]⟩]⟩⟩

/-- C6: on the empty scene collection the code raises an uncontrolled
IndexError (from indexing `scenes['results'][0]`), not the explicit
`NoScenesAvailable` error the specification requires. -/
theorem C6_empty_collection_raises_index_error :
    get_best_scene ⟨[]⟩ = .error .indexError ∧
    get_best_scene ⟨[]⟩ ≠ .error .noScenesAvailable := by
  have h1 : get_best_scene ⟨[]⟩ = .error .indexError := rfl
  refine ⟨h1, ?_⟩
  rw [h1]
  intro h
  injection h with h2
  cases h2

namespace ProtocolProofs

theorem make_request_ok (r : Resp) (h : r.httpStatus = 200) :
    ApiEngine.make_request r = .ok r := by
  simp [ApiEngine.make_request, h]

theorem countInitiate_nil : countInitiate [] = 0 := rfl

theorem countStatus_nil : countStatus [] = 0 := rfl

theorem countRetrieve_nil : countRetrieve [] = 0 := rfl

theorem countInitiate_cons (e : Event) (t : List Event) :
    countInitiate (e :: t) =
      countInitiate t + (match e with | .initiateReq _ _ => 1 | _ => 0) := by
  unfold countInitiate
  rw [List.countP_cons]
  cases e <;> simp

theorem countStatus_cons (e : Event) (t : List Event) :
    countStatus (e :: t) =
      countStatus t + (match e with | .statusReq _ => 1 | _ => 0) := by
  unfold countStatus
  rw [List.countP_cons]
  cases e <;> simp

theorem countRetrieve_cons (e : Event) (t : List Event) :
    countRetrieve (e :: t) =
      countRetrieve t + (match e with | .retrieveReq _ => 1 | _ => 0) := by
  unfold countRetrieve
  rw [List.countP_cons]
  cases e <;> simp

theorem countInitiate_append (l₁ l₂ : List Event) :
    countInitiate (l₁ ++ l₂) = countInitiate l₁ + countInitiate l₂ := by
  unfold countInitiate
  rw [List.countP_append]

theorem countStatus_append (l₁ l₂ : List Event) :
    countStatus (l₁ ++ l₂) = countStatus l₁ + countStatus l₂ := by
  unfold countStatus
  rw [List.countP_append]

theorem countRetrieve_append (l₁ l₂ : List Event) :
    countRetrieve (l₁ ++ l₂) = countRetrieve l₁ + countRetrieve l₂ := by
  unfold countRetrieve
  rw [List.countP_append]

theorem specPollTrace_counts (pid : Option String) :
    ∀ (d : ℚ) (l : List Resp),
      countInitiate (specPollTrace pid d l) = 0 ∧
      countStatus (specPollTrace pid d l) = l.length ∧
      countRetrieve (specPollTrace pid d l) = 0 := by
  intro d l
  induction l generalizing d with
  | nil => exact ⟨rfl, rfl, rfl⟩
  | cons r rest ih =>
    obtain ⟨h1, h2, h3⟩ := ih (r.nextTry.getD 100)
    refine ⟨?_, ?_, ?_⟩ <;>
      simp [specPollTrace, countInitiate_cons, countStatus_cons,
        countRetrieve_cons, h1, h2, h3]

/-- Runs of the poll loop that meet only in-progress responses before a
final RESOLVED one produce exactly the specification's poll traffic and
exit to retrieve. -/
theorem pollLoop_resolved (pid : Option String) (res : Resp)
    (h2 : res.httpStatus = 200) (hst : res.status = some "RESOLVED") :
    ∀ (d : ℚ) (pre : List Resp),
      (∀ r ∈ pre, r.httpStatus = 200 ∧ r.status.getD "" ≠ "RESOLVED" ∧
        r.status.getD "" ≠ "FAILED") →
      ApiEngine.pollLoop pid (some d) (pre ++ [res]) =
        (specPollTrace pid d (pre ++ [res]), .resolved) := by
  intro d pre
  induction pre generalizing d with
  | nil =>
    intro _
    simp [ApiEngine.pollLoop, make_request_ok res h2, hst, specPollTrace]
  | cons r rest ih =>
    intro hpre
    obtain ⟨hr2, hrR, hrF⟩ := hpre r (List.mem_cons_self r rest)
    have hrest := fun t ht => hpre t (List.mem_cons_of_mem r ht)
    rw [List.cons_append]
    show ApiEngine.pollLoop pid (some d) (r :: (rest ++ [res])) = _
    simp only [ApiEngine.pollLoop, make_request_ok r hr2]
    rw [if_neg hrR, if_neg hrF, ih (r.nextTry.getD 100) hrest]
    simp [specPollTrace]

/-- Runs of the poll loop that meet only in-progress responses before a
FAILED one raise the pipeline failure carrying the pipeline id, without
consuming any later response. -/
theorem pollLoop_failed (pid : Option String) (failedR : Resp) (post : List Resp)
    (h2 : failedR.httpStatus = 200) (hst : failedR.status = some "FAILED") :
    ∀ (d : ℚ) (pre : List Resp),
      (∀ r ∈ pre, r.httpStatus = 200 ∧ r.status.getD "" ≠ "RESOLVED" ∧
        r.status.getD "" ≠ "FAILED") →
      ApiEngine.pollLoop pid (some d) (pre ++ failedR :: post) =
        (specPollTrace pid d (pre ++ [failedR]), .err (.pipelineFailed pid)) := by
  intro d pre
  induction pre generalizing d with
  | nil =>
    intro _
    simp only [List.nil_append, ApiEngine.pollLoop, make_request_ok failedR h2, hst]
    rw [if_neg (by decide), if_pos (by decide)]
    simp [specPollTrace]
  | cons r rest ih =>
    intro hpre
    obtain ⟨hr2, hrR, hrF⟩ := hpre r (List.mem_cons_self r rest)
    have hrest := fun t ht => hpre t (List.mem_cons_of_mem r ht)
    rw [List.cons_append]
    show ApiEngine.pollLoop pid (some d) (r :: (rest ++ failedR :: post)) = _
    simp only [ApiEngine.pollLoop, make_request_ok r hr2]
    rw [if_neg hrR, if_neg hrF, ih (r.nextTry.getD 100) hrest]
    simp [specPollTrace]

end ProtocolProofs

/-- C1: when the shared status endpoint returns in-progress responses N
times and then RESOLVED, `get_data` performs exactly one initiate
request, N+1 status requests and one retrieve request, in that order,
sleeping before each status request the delay advertised by the previous
response (100 seconds when a status response omits `nextTry`), and
returns the retrieve response. -/
theorem C1_resolved_protocol (o : ApiEngine.Oracle) (p : Payload)
    (addr : String) (d0 : ℚ) (pre : List Resp) (res : Resp)
    (hi : o.initiateResp.httpStatus = 200)
    (hnt : o.initiateResp.nextTry = some d0)
    (hsr : o.statusResps = pre ++ [res])
    (hpre : ∀ r ∈ pre, r.httpStatus = 200 ∧ r.status.getD "" ≠ "RESOLVED" ∧
      r.status.getD "" ≠ "FAILED")
    (h2 : res.httpStatus = 200) (hst : res.status = some "RESOLVED") :
    ApiEngine.get_data o p addr =
      (Event.initiateReq (addr ++ "/initiate") p ::
        (specPollTrace o.initiateResp.pipelineId d0 (pre ++ [res]) ++
          [Event.retrieveReq o.initiateResp.pipelineId]),
       match ApiEngine.make_request o.retrieveResp with
       | .ok r => .ok r
       | .error e => .err e) ∧
    countInitiate (ApiEngine.get_data o p addr).1 = 1 ∧
    countStatus (ApiEngine.get_data o p addr).1 = pre.length + 1 ∧
    countRetrieve (ApiEngine.get_data o p addr).1 = 1 := by
  have hpoll := ProtocolProofs.pollLoop_resolved o.initiateResp.pipelineId res
    h2 hst d0 pre hpre
  have hT : ApiEngine.get_data o p addr =
      (Event.initiateReq (addr ++ "/initiate") p ::
        (specPollTrace o.initiateResp.pipelineId d0 (pre ++ [res]) ++
          [Event.retrieveReq o.initiateResp.pipelineId]),
       match ApiEngine.make_request o.retrieveResp with
       | .ok r => .ok r
       | .error e => .err e) := by
    simp only [ApiEngine.get_data, ProtocolProofs.make_request_ok o.initiateResp hi,
      hnt, hsr, hpoll]
  refine ⟨hT, ?_, ?_, ?_⟩ <;> rw [hT] <;>
    simp [ProtocolProofs.countInitiate_cons, ProtocolProofs.countStatus_cons,
      ProtocolProofs.countRetrieve_cons, ProtocolProofs.countInitiate_append,
      ProtocolProofs.countStatus_append, ProtocolProofs.countRetrieve_append,
      ProtocolProofs.countInitiate_nil, ProtocolProofs.countStatus_nil,
      ProtocolProofs.countRetrieve_nil,
      (ProtocolProofs.specPollTrace_counts o.initiateResp.pipelineId d0
        (pre ++ [res])).1,
      (ProtocolProofs.specPollTrace_counts o.initiateResp.pipelineId d0
        (pre ++ [res])).2.1,
      (ProtocolProofs.specPollTrace_counts o.initiateResp.pipelineId d0
        (pre ++ [res])).2.2]

/-- Witness for C1: one in-progress poll, then RESOLVED, gives one
initiate, two status requests and one retrieve. -/
theorem C1_resolved_protocol_witness :
    countInitiate (ApiEngine.get_data c1_oracle fixturePayload "https://x").1 = 1 ∧
    countStatus (ApiEngine.get_data c1_oracle fixturePayload "https://x").1 = 2 ∧
    countRetrieve (ApiEngine.get_data c1_oracle fixturePayload "https://x").1 = 1 :=
  (C1_resolved_protocol c1_oracle fixturePayload "https://x" 7 [procResp]
    resolvedResp rfl rfl rfl (by decide) rfl rfl).2

/-- C4: when some status poll returns FAILED (after any number of
in-progress polls), `get_data` fails with the pipeline-failure error
carrying the pipeline id, and the trace contains no retrieve request. -/
theorem C4_failed_poll (o : ApiEngine.Oracle) (p : Payload) (addr : String)
    (d0 : ℚ) (pre : List Resp) (failedR : Resp) (post : List Resp)
    (hi : o.initiateResp.httpStatus = 200)
    (hnt : o.initiateResp.nextTry = some d0)
    (hsr : o.statusResps = pre ++ failedR :: post)
    (hpre : ∀ r ∈ pre, r.httpStatus = 200 ∧ r.status.getD "" ≠ "RESOLVED" ∧
      r.status.getD "" ≠ "FAILED")
    (h2 : failedR.httpStatus = 200) (hst : failedR.status = some "FAILED") :
    ApiEngine.get_data o p addr =
      (Event.initiateReq (addr ++ "/initiate") p ::
        specPollTrace o.initiateResp.pipelineId d0 (pre ++ [failedR]),
       .err (.pipelineFailed o.initiateResp.pipelineId)) ∧
    countRetrieve (ApiEngine.get_data o p addr).1 = 0 := by
  have hpoll := ProtocolProofs.pollLoop_failed o.initiateResp.pipelineId failedR
    post h2 hst d0 pre hpre
  have hT : ApiEngine.get_data o p addr =
      (Event.initiateReq (addr ++ "/initiate") p ::
        specPollTrace o.initiateResp.pipelineId d0 (pre ++ [failedR]),
       .err (.pipelineFailed o.initiateResp.pipelineId)) := by
    simp only [ApiEngine.get_data, ProtocolProofs.make_request_ok o.initiateResp hi,
      hnt, hsr, hpoll]
  refine ⟨hT, ?_⟩
  rw [hT]
  simp [ProtocolProofs.countRetrieve_cons,
    (ProtocolProofs.specPollTrace_counts o.initiateResp.pipelineId d0
      (pre ++ [failedR])).2.2]

/-- Witness for C4: one in-progress poll, then FAILED, performs no
retrieve request. -/
theorem C4_failed_poll_witness :
    countRetrieve (ApiEngine.get_data c4_oracle fixturePayload "https://x").1 = 0 :=
  (C4_failed_poll c4_oracle fixturePayload "https://x" 7 [procResp] failedResp
    [procResp] rfl rfl rfl (by decide) rfl rfl).2

/-- C5: the transport layer classifies every scripted response the same
way at each phase: a non-200 response whose body's `error` equals
INVALID-AUTHORIZATION-HEADER raises AuthenticationError; a non-200
response with any other or missing `error` raises the generic exception
carrying the body's `errorMessage` (possibly absent); a 200 response is
returned as parsed JSON. -/
theorem C5_transport_classification (r : Resp) :
    (r.httpStatus ≠ 200 → r.error = some "INVALID-AUTHORIZATION-HEADER" →
      ApiEngine.make_request r = .error (.authenticationError "Invalid token used")) ∧
    (r.httpStatus ≠ 200 → r.error ≠ some "INVALID-AUTHORIZATION-HEADER" →
      ApiEngine.make_request r = .error (.remoteRequestError r.errorMessage)) ∧
    (r.httpStatus = 200 → ApiEngine.make_request r = .ok r) := by
  refine ⟨fun h1 h2 => ?_, fun h1 h2 => ?_, fun h1 => ?_⟩
  · simp [ApiEngine.make_request, h1, h2]
  · simp [ApiEngine.make_request, h1, h2]
  · simp [ApiEngine.make_request, h1]

/-- Witness for C5 at three concrete responses, one per classification. -/
theorem C5_transport_classification_witness :
    ApiEngine.make_request
        ⟨401, some "INVALID-AUTHORIZATION-HEADER", none, none, none, none, none⟩ =
      .error (.authenticationError "Invalid token used") ∧
    ApiEngine.make_request ⟨500, none, some "boom", none, none, none, none⟩ =
      .error (.remoteRequestError (some "boom")) ∧
    ApiEngine.make_request emptyResp = .ok emptyResp :=
  ⟨(C5_transport_classification _).1 (by decide) rfl,
   (C5_transport_classification _).2.1 (by decide) (by decide),
   (C5_transport_classification emptyResp).2.2 rfl⟩

/-- C7 counterexample: with an initiate response that omits `nextTry`,
the run does not apply any positive default delay: it passes `None` to
the sleep, which raises TypeError before any status poll. -/
theorem C7_counterexample :
    ApiEngine.get_data c7_oracle fixturePayload "https://x" =
      ([.initiateReq ("https://x" ++ "/initiate") fixturePayload, .sleep none],
       .err .typeError) := rfl

/-- C7 amended: when the initiate response omits `nextTry`, `get_data`
applies no default delay: it hands the missing value (`None`) to
`asyncio.sleep`, which raises TypeError before the first status poll,
so no status request is ever performed (the 100-second default exists
only for status responses). -/
theorem C7_missing_initiate_next_try (o : ApiEngine.Oracle) (p : Payload)
    (addr : String) (hi : o.initiateResp.httpStatus = 200)
    (hnt : o.initiateResp.nextTry = none) :
    ApiEngine.get_data o p addr =
      ([.initiateReq (addr ++ "/initiate") p, .sleep none], .err .typeError) ∧
    countStatus (ApiEngine.get_data o p addr).1 = 0 := by
  have hT : ApiEngine.get_data o p addr =
      ([.initiateReq (addr ++ "/initiate") p, .sleep none], .err .typeError) := by
    simp only [ApiEngine.get_data, ProtocolProofs.make_request_ok o.initiateResp hi,
      hnt, ApiEngine.pollLoop]
  exact ⟨hT, by rw [hT]; rfl⟩

/-- Witness for the amended C7 at the concrete fixture oracle. -/
theorem C7_missing_initiate_next_try_witness :
    countStatus (ApiEngine.get_data c7_oracle fixturePayload "https://x").1 = 0 :=
  (C7_missing_initiate_next_try c7_oracle fixturePayload "https://x" rfl rfl).2

/-- C9: a status response whose body has no `status` field is treated as
still in progress: the poll loop neither resolves nor fails on it, and
continues with the response's `nextTry` (100 seconds when that is also
absent) as the new delay. -/
theorem C9_missing_status_is_in_progress (pid : Option String) (d : ℚ)
    (r : Resp) (rest : List Resp)
    (h2 : r.httpStatus = 200) (hst : r.status = none) :
    ApiEngine.pollLoop pid (some d) (r :: rest) =
      (Event.sleep (some d) :: Event.statusReq pid ::
        (ApiEngine.pollLoop pid (some (r.nextTry.getD 100)) rest).1,
       (ApiEngine.pollLoop pid (some (r.nextTry.getD 100)) rest).2) := by
  simp only [ApiEngine.pollLoop, ProtocolProofs.make_request_ok r h2, hst,
    Option.getD_none]
  rw [if_neg (by decide), if_neg (by decide)]

/-- Witness for C9: a 200 response with no `status` and no `nextTry`
leads to one more poll round with the 100-second default delay. -/
theorem C9_missing_status_is_in_progress_witness :
    ApiEngine.pollLoop (some "pid-9") (some 5) [emptyResp] =
      ([Event.sleep (some 5), Event.statusReq (some "pid-9"),
        Event.sleep (some 100), Event.statusReq (some "pid-9")],
       .exhausted) :=
  C9_missing_status_is_in_progress (some "pid-9") 5 emptyResp [] rfl rfl

/-- C10: for every input geometry and current time, the search payload is
exactly the map with provider gbdx, dataset idaho-pansharpened, the input
geometry verbatim as extent, and a start datetime rendering the datetime
90 days before the current time truncated to the start of its day
(midnight), i.e. the calendar date 90 days back with time 00:00:00. -/
theorem C10_search_payload (g : GeoJson) (now : PyDatetime) :
    get_search_payload g now 90 =
      ⟨"gbdx", "idaho-pansharpened",
       strftime_full (midnightOf (timedelta_days_sub now 90)), g⟩ := by
  unfold get_search_payload strftime_date_midnight strftime_full midnightOf
    timedelta_days_sub
  congr 1
  norm_num
  rfl

namespace WorkflowProofs

/-- Every `get_data` trace starts with the initiate request to the
engine's initiate endpoint, carrying the caller's payload. -/
theorem get_data_trace_head (o : ApiEngine.Oracle) (p : Payload) (a : String) :
    ∃ t, (ApiEngine.get_data o p a).1 =
      Event.initiateReq (a ++ "/initiate") p :: t := by
  unfold ApiEngine.get_data
  cases ApiEngine.make_request o.initiateResp with
  | error e => exact ⟨[], rfl⟩
  | ok ir =>
    cases hp : (ApiEngine.pollLoop ir.pipelineId ir.nextTry o.statusResps).2 with
    | resolved =>
      exact ⟨(ApiEngine.pollLoop ir.pipelineId ir.nextTry o.statusResps).1 ++
        [Event.retrieveReq ir.pipelineId], by simp [hp]⟩
    | err e =>
      exact ⟨(ApiEngine.pollLoop ir.pipelineId ir.nextTry o.statusResps).1,
        by simp [hp]⟩
    | exhausted =>
      exact ⟨(ApiEngine.pollLoop ir.pipelineId ir.nextTry o.statusResps).1,
        by simp [hp]⟩

/-- A `get_data` call that returns a result ends its trace with the
retrieve request. -/
theorem get_data_ok_last (o : ApiEngine.Oracle) (p : Payload) (a : String)
    (r : Resp) (h : (ApiEngine.get_data o p a).2 = .ok r) :
    ∃ pid, (ApiEngine.get_data o p a).1.getLast? =
      some (Event.retrieveReq pid) := by
  unfold ApiEngine.get_data at h ⊢
  cases hmk : ApiEngine.make_request o.initiateResp with
  | error e => simp [hmk] at h
  | ok ir =>
    cases hp : (ApiEngine.pollLoop ir.pipelineId ir.nextTry o.statusResps).2 with
    | resolved =>
      refine ⟨ir.pipelineId, ?_⟩
      simp only [hmk, hp]
      rw [← List.cons_append, List.getLast?_concat]
    | err e => simp [hmk, hp] at h
    | exhausted => simp [hmk, hp] at h

end WorkflowProofs

/-- C8: in every successful workflow run, both release pipelines are
initiated with the payload built from exactly the sceneId of the scene the
selector chose on the search result and the original input geometry
verbatim, and both release initiations occur only after the search
pipeline's whole trace, which ends with its retrieve. -/
theorem C8_release_payloads (g : GeoJson) (now : PyDatetime)
    (sO iO cO : ApiEngine.Oracle) (im cm : Resp)
    (h : (Workflow.main g now sO iO cO).2 = .ok im cm) :
    ∃ tS tI tC resp l best pid,
      Workflow.main g now sO iO cO = (tS ++ tI ++ tC, .ok im cm) ∧
      ApiEngine.get_data sO (.search (get_search_payload g now 90))
        ragnar_search_address = (tS, .ok resp) ∧
      resp.results = some l ∧
      get_best_scene ⟨l⟩ = .ok best ∧
      tI.head? = some (.initiateReq (kraken_imagery_address ++ "/initiate")
        (.release (get_release_payload g best.sceneId))) ∧
      tC.head? = some (.initiateReq (kraken_cars_address ++ "/initiate")
        (.release (get_release_payload g best.sceneId))) ∧
      tS.getLast? = some (.retrieveReq pid) := by
  unfold Workflow.main at h ⊢
  cases hS : (ApiEngine.get_data sO (.search (get_search_payload g now 90))
      ragnar_search_address).2 with
  | err e => simp [hS] at h
  | incomplete => simp [hS] at h
  | ok resp =>
    simp only [hS] at h ⊢
    cases hres : resp.results with
    | none => simp [hres] at h
    | some l =>
      simp only [hres] at h ⊢
      cases hbest : get_best_scene ⟨l⟩ with
      | error e => simp [hbest] at h
      | ok best =>
        simp only [hbest] at h ⊢
        cases hI : (ApiEngine.get_data iO
            (.release (get_release_payload g best.sceneId))
            kraken_imagery_address).2 with
        | err e => simp [hI] at h
        | incomplete => simp [hI] at h
        | ok imap =>
          simp only [hI] at h ⊢
          cases hC : (ApiEngine.get_data cO
              (.release (get_release_payload g best.sceneId))
              kraken_cars_address).2 with
          | err e => simp [hC] at h
          | incomplete => simp [hC] at h
          | ok cmap =>
            simp only [hC] at h ⊢
            simp only [MainResult.ok.injEq] at h
            obtain ⟨h1, h2⟩ := h
            subst h1
            subst h2
            obtain ⟨tI0, hI0⟩ := WorkflowProofs.get_data_trace_head iO
              (.release (get_release_payload g best.sceneId)) kraken_imagery_address
            obtain ⟨tC0, hC0⟩ := WorkflowProofs.get_data_trace_head cO
              (.release (get_release_payload g best.sceneId)) kraken_cars_address
            obtain ⟨pid, hpid⟩ := WorkflowProofs.get_data_ok_last sO
              (.search (get_search_payload g now 90)) ragnar_search_address resp hS
            refine ⟨_, _, _, resp, l, best, pid, rfl, ?_, hres, hbest, ?_, ?_, hpid⟩
            · rw [← hS]
            · rw [hI0]
              rfl
            · rw [hC0]
              rfl

namespace WorkflowProofs

theorem fixture_qual : qualD fixtureScene = true := by
  simp only [fixtureScene, qualD, Option.getD_some, decide_eq_true_eq]
  norm_num

theorem fixture_best : get_best_scene ⟨[fixtureScene]⟩ = .ok fixtureScene := by
  simp [get_best_scene, best_scene_loop, fixture_qual]

theorem fixture_search_run :
    (ApiEngine.get_data fixtureSearchOracle
      (.search (get_search_payload fixtureGeo fixtureNow 90))
      ragnar_search_address).2 =
      .ok ⟨200, none, none, none, none, none, some [fixtureScene]⟩ := by
  simp [ApiEngine.get_data, ApiEngine.pollLoop, ApiEngine.make_request,
    fixtureSearchOracle, resolvedResp]

theorem fixture_imagery_run :
    (ApiEngine.get_data fixtureReleaseOracle
      (.release (get_release_payload fixtureGeo fixtureScene.sceneId))
      kraken_imagery_address).2 = .ok emptyResp := by
  simp [ApiEngine.get_data, ApiEngine.pollLoop, ApiEngine.make_request,
    fixtureReleaseOracle, resolvedResp, emptyResp]

theorem fixture_cars_run :
    (ApiEngine.get_data fixtureReleaseOracle
      (.release (get_release_payload fixtureGeo fixtureScene.sceneId))
      kraken_cars_address).2 = .ok emptyResp := by
  simp [ApiEngine.get_data, ApiEngine.pollLoop, ApiEngine.make_request,
    fixtureReleaseOracle, resolvedResp, emptyResp]

theorem fixture_main_ok :
    (Workflow.main fixtureGeo fixtureNow fixtureSearchOracle
      fixtureReleaseOracle fixtureReleaseOracle).2 = .ok emptyResp emptyResp := by
  simp only [Workflow.main, fixture_search_run, fixture_best,
    fixture_imagery_run, fixture_cars_run]

end WorkflowProofs

/-- Witness for C8 at a concrete successful workflow run. -/
theorem C8_release_payloads_witness :
    ∃ tS tI tC resp l best pid,
      Workflow.main fixtureGeo fixtureNow fixtureSearchOracle
        fixtureReleaseOracle fixtureReleaseOracle =
        (tS ++ tI ++ tC, .ok emptyResp emptyResp) ∧
      ApiEngine.get_data fixtureSearchOracle
        (.search (get_search_payload fixtureGeo fixtureNow 90))
        ragnar_search_address = (tS, .ok resp) ∧
      resp.results = some l ∧
      get_best_scene ⟨l⟩ = .ok best ∧
      tI.head? = some (.initiateReq (kraken_imagery_address ++ "/initiate")
        (.release (get_release_payload fixtureGeo best.sceneId))) ∧
      tC.head? = some (.initiateReq (kraken_cars_address ++ "/initiate")
        (.release (get_release_payload fixtureGeo best.sceneId))) ∧
      tS.getLast? = some (.retrieveReq pid) :=
  C8_release_payloads fixtureGeo fixtureNow fixtureSearchOracle
    fixtureReleaseOracle fixtureReleaseOracle emptyResp emptyResp
    WorkflowProofs.fixture_main_ok
